import Mathlib

/-!
Verification of Rocket's logging subsystem (`src/lib/src/logger.rs`).

The module is embedded shallowly: the three-valued `LoggingLevel`, the
five-valued `LogLevel` severity scale of the `log` crate (with its numeric
discriminant order `Error = 1 < Warn < Info < Debug < Trace = 5`), the
`enabled` filter, and the `log` rendering routine.  Console output is
modelled as a list of `Chunk`s, each either raw text or text carrying a
color/bold style, in exactly the order the Rust code prints them.
-/

/-- The three user-facing logging levels (`enum LoggingLevel`). -/
inductive LoggingLevel
  | Critical
  | Normal
  | Debug
deriving DecidableEq, Repr

/-- The `log` crate's five-valued severity scale (`enum LogLevel`). -/
inductive LogLevel
  | Error
  | Warn
  | Info
  | Debug
  | Trace
deriving DecidableEq, Repr

/-- Numeric discriminant of `LogLevel` in the `log` crate
(`Error = 1, Warn = 2, Info = 3, Debug = 4, Trace = 5`); the crate's
`PartialOrd` compares these numbers. -/
def LogLevel.toNat : LogLevel → Nat
  | .Error => 1
  | .Warn => 2
  | .Info => 3
  | .Debug => 4
  | .Trace => 5

/-- `LoggingLevel::max_log_level`: the severity ceiling of each level. -/
def LoggingLevel.max_log_level : LoggingLevel → LogLevel
  | .Critical => .Warn
  | .Normal => .Info
  | .Debug => .Trace

/-- `LoggingLevel::from_str`: case-sensitive parse of the three tokens;
any other string yields the static error value from the source. -/
def LoggingLevel.from_str (s : String) : Except String LoggingLevel :=
  if s = "critical" then .ok .Critical
  else if s = "normal" then .ok .Normal
  else if s = "debug" then .ok .Debug
  else .error "a log level (debug, normal, critical)"

/-- `impl fmt::Display for LoggingLevel`: the lowercase token. -/
def LoggingLevel.display : LoggingLevel → String
  | .Critical => "critical"
  | .Normal => "normal"
  | .Debug => "debug"

/-- A log record (`LogRecord` of the `log` crate): severity, target/channel
string, formatted message, and source location (module path, file, line). -/
structure LogRecord where
  level : LogLevel
  target : String
  module_path : String
  file : String
  line : Nat
  args : String
deriving DecidableEq, Repr

/-- Colors used by the renderer (via `yansi::Paint`). -/
inductive Color
  | white
  | blue
  | purple
  | red
  | yellow
deriving DecidableEq, Repr

/-- One piece of console output: raw text, or text painted with a color and
an optional bold attribute. -/
inductive Chunk
  | raw (s : String)
  | styled (c : Color) (bold : Bool) (s : String)
deriving DecidableEq, Repr

/-- Rust's `str::starts_with`: the pattern's character sequence is a
leading segment of the string's character sequence. -/
def String.starts_with (s p : String) : Bool :=
  p.data.isPrefixOf s.data

/-- `RocketLogger::enabled`: a record passes the filter iff its severity's
discriminant is at most the discriminant of the level's ceiling. -/
def RocketLogger.enabled (lvl : LoggingLevel) (sev : LogLevel) : Bool :=
  sev.toNat ≤ lvl.max_log_level.toNat

/-- Output of the final `match level` in `RocketLogger::log`, one chunk per
printed fragment, `Chunk.raw "\n"` for the newline of each `println!`. -/
def renderContent (level : LogLevel) (record : LogRecord) : List Chunk :=
  match level with
  | .Info => [.styled .blue false record.args, .raw "\n"]
  | .Trace => [.styled .purple false record.args, .raw "\n"]
  | .Error => [.styled .red true "Error:", .raw " ", .styled .red false record.args, .raw "\n"]
  | .Warn => [.styled .yellow true "Warning:", .raw " ", .styled .yellow false record.args, .raw "\n"]
  | .Debug =>
      [.raw "\n", .styled .blue true "-->", .raw " ",
       .styled .blue false record.file, .raw ":", .styled .blue false (toString record.line),
       .raw "\n", .raw record.args, .raw "\n"]

/-- `RocketLogger::log`: the full rendering routine, returning the chunks
printed to standard output (empty when the record produces no output). -/
def RocketLogger.log (lvl : LoggingLevel) (record : LogRecord) : List Chunk :=
  if !(RocketLogger.enabled lvl record.level) then []
  else
    let level := if record.target = "launch" then LogLevel.Info else record.level
    let from_hyper := record.module_path.starts_with "hyper::"
    let from_rustls := record.module_path.starts_with "rustls::"
    if lvl ≠ LoggingLevel.Debug ∧ (from_hyper ∨ from_rustls) then []
    else
      let indentChunks : List Chunk :=
        if record.target = "_" ∧ lvl ≠ LoggingLevel.Critical then
          [.raw "    ", .styled .white false "=>", .raw " "]
        else []
      indentChunks ++ renderContent level record

/-- Modelled from the spec: the `log` crate's global `set_logger` is not part
of this repository; per the spec (§3, §7) at most one logger is ever
installed and a second installation attempt fails.  The global state is the
optional installed level; the `Bool` is success. -/
def set_logger (st : Option LoggingLevel) (level : LoggingLevel) :
    Option LoggingLevel × Bool :=
  match st with
  | some l => (some l, false)
  | none => (some level, true)

/-- `try_init`: installs the logger via `set_logger`; on failure prints the
message iff `verbose`.  Returns the new global state and the lines printed. -/
def try_init (st : Option LoggingLevel) (level : LoggingLevel) (verbose : Bool) :
    Option LoggingLevel × List String :=
  let result := set_logger st level
  if result.2 then (result.1, [])
  else if verbose then (result.1, ["Logger failed to initialize"])
  else (result.1, [])

/-- `init`: the verbose variant. -/
def init (st : Option LoggingLevel) (level : LoggingLevel) :
    Option LoggingLevel × List String :=
  try_init st level true

/-- Spec-side rank of a severity, transcribed from the claim's words: the
ranks are totally ordered `Error < Warn < Info < Debug < Trace`.  It is
compared with the source-side `RocketLogger.enabled`. -/
def specRank : LogLevel → Nat
  | .Error => 0
  | .Warn => 1
  | .Info => 2
  | .Debug => 3
  | .Trace => 4

/-- Spec-side ceiling mapping, transcribed from the claim's words:
`ceiling(Critical)=Warn, ceiling(Normal)=Info, ceiling(Debug)=Trace`. -/
def specCeiling : LoggingLevel → LogLevel
  | .Critical => .Warn
  | .Normal => .Info
  | .Debug => .Trace

/-- A record of severity Trace on the plain channel. -/
def traceRec : LogRecord := ⟨.Trace, "route", "rocket::router", "router.rs", 10, "matched"⟩

/-- A severity-Error record originating from the hyper library. -/
def hyperRec : LogRecord := ⟨.Error, "event", "hyper::client", "client.rs", 42, "io error"⟩

/-- A launch-channel record of originating severity Error. -/
def launchErrorRec : LogRecord := ⟨.Error, "launch", "rocket::rocket", "rocket.rs", 7, "Rocket has launched"⟩

/-- A continuation-channel record of severity Warn. -/
def contWarnRec : LogRecord := ⟨.Warn, "_", "rocket::config", "config.rs", 3, "deprecated key"⟩

/-- A plain-channel record of severity Error. -/
def errorRec : LogRecord := ⟨.Error, "request", "rocket::handler", "handler.rs", 99, "boom"⟩

/-- A launch-channel record of originating severity Trace. -/
def launchTraceRec : LogRecord := ⟨.Trace, "launch", "rocket::rocket", "rocket.rs", 8, "details"⟩

/-- A continuation-channel record of severity Debug. -/
def contDebugRec : LogRecord := ⟨.Debug, "_", "rocket::codegen", "codegen.rs", 5, "generated"⟩

theorem enabled_iff_rank (L : LoggingLevel) (S : LogLevel) :
    RocketLogger.enabled L S = true ↔ specRank S ≤ specRank (specCeiling L) := by
  cases L <;> cases S <;> decide

theorem renderContent_ne_nil (level : LogLevel) (r : LogRecord) :
    renderContent level r ≠ [] := by
  cases level <;> simp [renderContent]

/-- C1: for every level L and severity S, the filter accepts exactly when
rank(S) ≤ rank(ceiling(L)) under the order Error < Warn < Info < Debug <
Trace with ceiling Critical→Warn, Normal→Info, Debug→Trace; and a disabled
record produces no output at all. -/
theorem c1_enabled_iff_ceiling (L : LoggingLevel) (r : LogRecord) :
    (RocketLogger.enabled L r.level = true ↔
      specRank r.level ≤ specRank (specCeiling L)) ∧
    (RocketLogger.enabled L r.level = false → RocketLogger.log L r = []) := by
  refine ⟨enabled_iff_rank L r.level, fun h => ?_⟩
  simp [RocketLogger.log, h]

theorem c1_enabled_iff_ceiling_witness :
    RocketLogger.log LoggingLevel.Normal traceRec = [] :=
  (c1_enabled_iff_ceiling LoggingLevel.Normal traceRec).2 (by decide)

/-- C2: an enabled record whose module path begins with "hyper::" or
"rustls::" is suppressed entirely whenever the active level is not Debug,
even if its severity passes the ceiling; at level Debug it is not
suppressed. -/
theorem c2_noise_suppression (L : LoggingLevel) (r : LogRecord)
    (hmod : r.module_path.starts_with "hyper::" = true ∨
            r.module_path.starts_with "rustls::" = true) :
    (L ≠ LoggingLevel.Debug → RocketLogger.log L r = []) ∧
    RocketLogger.log LoggingLevel.Debug r ≠ [] := by
  constructor
  · intro hL
    by_cases hen : RocketLogger.enabled L r.level
    · simp [RocketLogger.log, hen, hL, hmod]
    · simp [RocketLogger.log, hen]
  · have hen : RocketLogger.enabled LoggingLevel.Debug r.level = true := by
      cases h : r.level <;> decide
    simp [RocketLogger.log, hen]
    exact fun _ => renderContent_ne_nil _ r

theorem c2_noise_suppression_witness :
    RocketLogger.log LoggingLevel.Normal hyperRec = [] ∧
    RocketLogger.log LoggingLevel.Debug hyperRec ≠ [] := by
  have h := c2_noise_suppression LoggingLevel.Normal hyperRec (Or.inl (by decide))
  exact ⟨h.1 (by decide), h.2⟩

/-- C3: for every enabled, non-suppressed record whose target is "launch",
the content is rendered with the Info form (styled message plus newline),
regardless of the record's original severity. -/
theorem c3_launch_remap (L : LoggingLevel) (r : LogRecord)
    (htgt : r.target = "launch")
    (hen : RocketLogger.enabled L r.level = true)
    (hns : ¬(L ≠ LoggingLevel.Debug ∧
      (r.module_path.starts_with "hyper::" ∨ r.module_path.starts_with "rustls::"))) :
    RocketLogger.log L r = [Chunk.styled Color.blue false r.args, Chunk.raw "\n"] := by
  simp +decide [RocketLogger.log, hen, htgt, hns, renderContent]

theorem c3_launch_remap_witness :
    RocketLogger.log LoggingLevel.Normal launchErrorRec =
      [Chunk.styled Color.blue false "Rocket has launched", Chunk.raw "\n"] :=
  c3_launch_remap LoggingLevel.Normal launchErrorRec rfl (by decide) (by decide)

/-- C4: for every enabled, non-suppressed record whose target is "_": when
the level is not Critical, the indentation chunks (indent, the styled "=>"
glyph and a space, no trailing newline) precede the content; when the level
is Critical, no indentation chunks are emitted but the body is still
rendered. -/
theorem c4_continuation_indent (L : LoggingLevel) (r : LogRecord)
    (htgt : r.target = "_")
    (hen : RocketLogger.enabled L r.level = true)
    (hns : ¬(L ≠ LoggingLevel.Debug ∧
      (r.module_path.starts_with "hyper::" ∨ r.module_path.starts_with "rustls::"))) :
    (L ≠ LoggingLevel.Critical →
      RocketLogger.log L r =
        [Chunk.raw "    ", Chunk.styled Color.white false "=>", Chunk.raw " "] ++
          renderContent r.level r) ∧
    (L = LoggingLevel.Critical → RocketLogger.log L r = renderContent r.level r) := by
  constructor
  · intro hcrit
    simp +decide [RocketLogger.log, hen, htgt, hns, hcrit]
  · intro hcrit
    subst hcrit
    have hmod : ¬(r.module_path.starts_with "hyper::" = true ∨
        r.module_path.starts_with "rustls::" = true) :=
      fun hm => hns ⟨by decide, hm⟩
    simp +decide [RocketLogger.log, hen, htgt, hmod]

theorem c4_continuation_indent_witness :
    RocketLogger.log LoggingLevel.Critical contWarnRec =
      [Chunk.styled Color.yellow true "Warning:", Chunk.raw " ",
       Chunk.styled Color.yellow false "deprecated key", Chunk.raw "\n"] := by
  have h :=
    (c4_continuation_indent LoggingLevel.Critical contWarnRec rfl (by decide) (by decide)).2 rfl
  simpa [renderContent, contWarnRec] using h

/-- C5: for every enabled, non-suppressed record on a plain channel, the
rendered content is exactly determined by its severity: Info and Trace are a
styled message plus newline; Error and Warn are a bold label, a space, the
styled message and a newline; Debug is a leading blank line, the styled
arrow, file and line, then the raw message on the next line. -/
theorem c5_content_forms (L : LoggingLevel) (r : LogRecord)
    (hlaunch : r.target ≠ "launch")
    (hcont : r.target ≠ "_")
    (hen : RocketLogger.enabled L r.level = true)
    (hns : ¬(L ≠ LoggingLevel.Debug ∧
      (r.module_path.starts_with "hyper::" ∨ r.module_path.starts_with "rustls::"))) :
    (r.level = LogLevel.Info →
      RocketLogger.log L r = [Chunk.styled Color.blue false r.args, Chunk.raw "\n"]) ∧
    (r.level = LogLevel.Trace →
      RocketLogger.log L r = [Chunk.styled Color.purple false r.args, Chunk.raw "\n"]) ∧
    (r.level = LogLevel.Error →
      RocketLogger.log L r = [Chunk.styled Color.red true "Error:", Chunk.raw " ",
        Chunk.styled Color.red false r.args, Chunk.raw "\n"]) ∧
    (r.level = LogLevel.Warn →
      RocketLogger.log L r = [Chunk.styled Color.yellow true "Warning:", Chunk.raw " ",
        Chunk.styled Color.yellow false r.args, Chunk.raw "\n"]) ∧
    (r.level = LogLevel.Debug →
      RocketLogger.log L r = [Chunk.raw "\n", Chunk.styled Color.blue true "-->", Chunk.raw " ",
        Chunk.styled Color.blue false r.file, Chunk.raw ":",
        Chunk.styled Color.blue false (toString r.line),
        Chunk.raw "\n", Chunk.raw r.args, Chunk.raw "\n"]) := by
  refine ⟨?_, ?_, ?_, ?_, ?_⟩ <;> intro hlev <;> rw [hlev] at hen <;>
    simp [RocketLogger.log, hen, hns, hlaunch, hcont, hlev, renderContent]

theorem c5_content_forms_witness :
    RocketLogger.log LoggingLevel.Normal errorRec =
      [Chunk.styled Color.red true "Error:", Chunk.raw " ",
       Chunk.styled Color.red false "boom", Chunk.raw "\n"] := by
  have h :=
    (c5_content_forms LoggingLevel.Normal errorRec (by decide) (by decide)
      (by decide) (by decide)).2.2.1 rfl
  simpa [errorRec] using h

/-- C6: every valid token round-trips: displaying the parsed level gives
back exactly the token, for "debug", "normal" and "critical". -/
theorem c6_roundtrip :
    (LoggingLevel.from_str "debug").map LoggingLevel.display = Except.ok "debug" ∧
    (LoggingLevel.from_str "normal").map LoggingLevel.display = Except.ok "normal" ∧
    (LoggingLevel.from_str "critical").map LoggingLevel.display = Except.ok "critical" :=
  ⟨rfl, rfl, rfl⟩

/-- C7 counterexample: parsing an invalid token yields the static error
value "a log level (debug, normal, critical)", not the message
"expected one of debug/normal/critical" asserted by the claim. -/
theorem c7_error_message_counterexample :
    LoggingLevel.from_str "verbose" =
      Except.error "a log level (debug, normal, critical)" ∧
    LoggingLevel.from_str "verbose" ≠
      Except.error "expected one of debug/normal/critical" := by
  refine ⟨rfl, ?_⟩
  simp +decide [LoggingLevel.from_str]

/-- C7 amended: for every string other than the exact strings "critical",
"normal" and "debug", parsing returns the static error value
"a log level (debug, normal, critical)" (the function is total: it never
panics). -/
theorem c7_invalid_token (s : String)
    (h : s ≠ "critical" ∧ s ≠ "normal" ∧ s ≠ "debug") :
    LoggingLevel.from_str s = Except.error "a log level (debug, normal, critical)" := by
  obtain ⟨h1, h2, h3⟩ := h
  simp [LoggingLevel.from_str, h1, h2, h3]

theorem c7_invalid_token_witness :
    LoggingLevel.from_str "verbose2" =
      Except.error "a log level (debug, normal, critical)" :=
  c7_invalid_token "verbose2" ⟨by decide, by decide, by decide⟩

/-- C8: installing on an empty state succeeds; a second attempt leaves the
installed logger unchanged (at most one logger is ever installed) and
prints the failure message iff the verbose flag is set; `init` is exactly
`try_init` with verbose = true.  All operations are total (no panic). -/
theorem c8_single_install (st : Option LoggingLevel) (l1 l2 : LoggingLevel) (v : Bool) :
    (try_init none l1 v).1 = some l1 ∧
    (try_init (some l1) l2 v).1 = some l1 ∧
    ((try_init (some l1) l2 v).2 ≠ [] ↔ v = true) ∧
    init st l1 = try_init st l1 true := by
  cases v <;> simp [try_init, init, set_logger]

/-- C9: the filter runs on the record's original severity before the
launch-channel remap: a launch-targeted record whose original severity is
rejected by the level produces no output at all. -/
theorem c9_filter_before_remap (L : LoggingLevel) (r : LogRecord)
    (_htgt : r.target = "launch")
    (hdis : RocketLogger.enabled L r.level = false) :
    RocketLogger.log L r = [] := by
  simp [RocketLogger.log, hdis]

theorem c9_filter_before_remap_witness :
    RocketLogger.enabled LoggingLevel.Normal LogLevel.Info = true ∧
    RocketLogger.log LoggingLevel.Normal launchTraceRec = [] :=
  ⟨by decide, c9_filter_before_remap LoggingLevel.Normal launchTraceRec rfl (by decide)⟩

/-- C10: for a continuation-targeted, enabled, non-suppressed record at a
non-Critical level, the output starts with the indentation chunks whatever
the record's severity is; and when the severity is Debug the indentation
chunks are immediately followed by the Debug form's leading newline,
leaving the indentation alone on its line. -/
theorem c10_indent_ignores_severity (L : LoggingLevel) (r : LogRecord)
    (htgt : r.target = "_")
    (hen : RocketLogger.enabled L r.level = true)
    (hns : ¬(L ≠ LoggingLevel.Debug ∧
      (r.module_path.starts_with "hyper::" ∨ r.module_path.starts_with "rustls::")))
    (hcrit : L ≠ LoggingLevel.Critical) :
    (RocketLogger.log L r).take 3 =
      [Chunk.raw "    ", Chunk.styled Color.white false "=>", Chunk.raw " "] ∧
    (r.level = LogLevel.Debug →
      (RocketLogger.log L r).take 4 =
        [Chunk.raw "    ", Chunk.styled Color.white false "=>", Chunk.raw " ",
         Chunk.raw "\n"]) := by
  have hlog : RocketLogger.log L r =
      [Chunk.raw "    ", Chunk.styled Color.white false "=>", Chunk.raw " "] ++
        renderContent r.level r := by
    simp +decide [RocketLogger.log, hen, htgt, hns, hcrit]
  constructor
  · rw [hlog]
    cases r.level <;> simp [renderContent]
  · intro hd
    rw [hlog, hd]
    simp [renderContent]

theorem c10_indent_ignores_severity_witness :
    (RocketLogger.log LoggingLevel.Debug contDebugRec).take 4 =
      [Chunk.raw "    ", Chunk.styled Color.white false "=>", Chunk.raw " ",
       Chunk.raw "\n"] :=
  (c10_indent_ignores_severity LoggingLevel.Debug contDebugRec rfl (by decide)
    (by decide) (by decide)).2 rfl
